import Mathlib

/-!
Shallow embedding of the Power-4 college-football betting site scripts
(src/script.js, src/rankings.js, src/game.js) and proofs about the
data-shaping pipeline: homepage matchup filtering, spread display,
conference tie-break, ranking aggregation and sorting, the team-info
cache, and the game-detail renderer.

JavaScript values are modelled as follows: numbers from the JSON data
become rationals, nullable or possibly-absent fields become Option,
objects become structures, and object maps become association lists.
Truthiness tests and default expressions such as `x || 0` are written
out explicitly at each use site.
-/

namespace Power4

/-! JavaScript helper semantics -/

/-- Models `x || 0` for a possibly-absent numeric value: absent or zero
gives zero, any other number gives itself. -/
def jsOrZero (o : Option ℚ) : ℚ :=
  match o with
  | some q => if q = 0 then 0 else q
  | none => 0

/-- Models `x || 0` where the stored value may itself be NaN
(an inner none), as produced by parseFloat. -/
def jsOrZeroN (o : Option (Option ℚ)) : ℚ :=
  match o with
  | some (some q) => if q = 0 then 0 else q
  | some none => 0
  | none => 0

/-- Models `x || d` for a possibly-absent string: absent or empty gives
the default. -/
def jsOrS (o : Option String) (d : String) : String :=
  match o with
  | some s => if s = "" then d else s
  | none => d

/-- Models `s.trim()`: strip leading and trailing whitespace. -/
def jsTrim (s : String) : String :=
  ⟨((s.data.dropWhile Char.isWhitespace).reverse.dropWhile Char.isWhitespace).reverse⟩

/-- Decimal digits of the fractional part num/den, with fuel bounding the
number of digits produced. -/
def fracDigits : Nat → Nat → Nat → String
  | _, _, 0 => ""
  | num, den, fuel + 1 =>
    if num = 0 then ""
    else Nat.repr (num * 10 / den) ++ fracDigits (num * 10 % den) den fuel

/-- Models `Math.abs`. -/
def mathAbs (q : ℚ) : ℚ := if q < 0 then -q else q

/-- Models the implicit number-to-string conversion of template literals
and `Number.prototype.toString` for the decimal values in the data. -/
def ratToJsString (q : ℚ) : String :=
  let sign := if q < 0 then "-" else ""
  let aq := mathAbs q
  let ip := aq.num.toNat / aq.den
  let fr := aq.num.toNat % aq.den
  if fr = 0 then sign ++ Nat.repr ip
  else sign ++ Nat.repr ip ++ "." ++ fracDigits fr aq.den 20

/-- Value of a list of decimal digit characters. -/
def digitsToNat (cs : List Char) : Nat :=
  cs.foldl (fun a c => a * 10 + (c.toNat - 48)) 0

/-- Models `parseInt(s)` in base 10; none stands for NaN. -/
def jsParseInt (s : String) : Option Int :=
  let cs := (jsTrim s).data
  let core : List Char → Option Nat := fun l =>
    let ds := l.takeWhile Char.isDigit
    if ds.isEmpty then none else some (digitsToNat ds)
  match cs with
  | '-' :: rest => (core rest).map (fun n => -(n : Int))
  | '+' :: rest => (core rest).map (fun n => (n : Int))
  | _ => (core cs).map (fun n => (n : Int))

/-- Models `parseFloat(s)`; none stands for NaN. -/
def jsParseFloat (s : String) : Option ℚ :=
  let cs := (jsTrim s).data
  let signed : ℚ × List Char :=
    match cs with
    | '-' :: rest => (-1, rest)
    | '+' :: rest => (1, rest)
    | _ => (1, cs)
  let intDs := signed.2.takeWhile Char.isDigit
  let rest := signed.2.dropWhile Char.isDigit
  let fracDs : List Char :=
    match rest with
    | '.' :: r2 => r2.takeWhile Char.isDigit
    | _ => []
  if intDs.isEmpty ∧ fracDs.isEmpty then none
  else
    some (signed.1 *
      ((digitsToNat intDs : ℚ) + (digitsToNat fracDs : ℚ) / (10 : ℚ) ^ fracDs.length))

/-! Data model of the local snapshot (data/games.json records) -/

/-- Competitor record of a snapshot event. -/
structure Competitor where
  id : String
  name : String
  abbreviation : String
  homeAway : String
  groupId : Option Int
  logo : Option String
deriving DecidableEq

/-- Betting-odds record of a snapshot event. -/
structure Odds where
  spread : Option ℚ
  overUnder : Option ℚ
deriving DecidableEq

/-- Snapshot event record; stats maps a team id to a statistics map. -/
structure Event where
  id : String
  date : String
  network : Option String
  competitors : List Competitor
  odds : Option Odds
  stats : Option (List (String × List (String × ℚ)))
deriving DecidableEq

/-! src/script.js: homepage game cards -/

/-- Conference group identifiers for the Power-4 leagues (script.js line 15). -/
def P4_GROUPS : List Int := [1, 4, 5, 8]

/-- GROUP_ID_MAP of script.js (lines 23-35). -/
def groupIdMap (id : Int) : Option String :=
  if id = 1 then some "ACC"
  else if id = 4 then some "Big 12"
  else if id = 5 then some "Big Ten"
  else if id = 8 then some "SEC"
  else if id = 12 then some "CUSA"
  else if id = 15 then some "MAC"
  else if id = 17 then some "Mountain West"
  else if id = 18 then some "Independent"
  else if id = 29 then some "Southern"
  else if id = 30 then some "WAC"
  else if id = 31 then some "SWAC"
  else none

/-- CONF_COLOR_CLASS of script.js (lines 44-56). -/
def confColorClass (id : Int) : Option String :=
  if id = 1 then some "conf-acc"
  else if id = 4 then some "conf-big12"
  else if id = 5 then some "conf-bigten"
  else if id = 8 then some "conf-sec"
  else if id = 12 then some "conf-cusa"
  else if id = 15 then some "conf-mac"
  else if id = 17 then some "conf-mw"
  else if id = 18 then some "conf-ind"
  else if id = 29 then some "conf-southern"
  else if id = 30 then some "conf-wac"
  else if id = 31 then some "conf-swac"
  else none

/-- CONFERENCE_CLASS of script.js (lines 61-66). -/
def conferenceClass (id : Int) : Option String :=
  if id = 5 then some "big-ten"
  else if id = 8 then some "sec"
  else if id = 1 then some "acc"
  else if id = 4 then some "big-12"
  else none

/-- Test `c.groupId && P4_GROUPS.includes(c.groupId)` of script.js line 132. -/
def qualifies (c : Competitor) : Bool :=
  match c.groupId with
  | some g => decide (g ≠ 0) && P4_GROUPS.contains g
  | none => false

/-- Conference-scan loop of script.js lines 130-137: record each
qualifying conference id in turn, breaking out early on the home team. -/
def scanConfId : List Competitor → Option Int → Option Int
  | [], confId => confId
  | c :: rest, confId =>
    if qualifies c then
      if c.homeAway = "home" then c.groupId else scanConfId rest c.groupId
    else scanConfId rest confId

/-- Network display of script.js line 142. -/
def networkDisplay (n : Option String) : String :=
  match n with
  | some s => if s ≠ "" ∧ jsTrim s ≠ "" then s else "TBD"
  | none => "TBD"

/-- Spread-line computation of script.js lines 156-165. -/
def spreadLine (odds : Option Odds) (home away : Competitor) : String :=
  match (odds.getD { spread := none, overUnder := none }).spread with
  | some spread =>
    if spread < 0 then home.abbreviation ++ " " ++ ratToJsString (mathAbs spread)
    else if spread > 0 then away.abbreviation ++ " " ++ ratToJsString spread
    else "Pick"
  | none => "Pick"

/-- Over-under line of script.js line 167. -/
def overUnderLine (odds : Option Odds) : String :=
  match (odds.getD { spread := none, overUnder := none }).overUnder with
  | some q => ratToJsString q
  | none => "TBD"

/-- Display model of one homepage game card (script.js lines 168-198). -/
structure GameCard where
  eventId : String
  confId : Int
  barClass : String
  dateIso : String
  network : String
  awayConf : String
  homeConf : String
  awayConfClass : String
  homeConfClass : String
  awayName : String
  homeName : String
  awayLogo : Option String
  homeLogo : Option String
  spreadText : String
  overUnderText : String
deriving DecidableEq

/-- Per-event card construction of the loadGames loop body
(script.js lines 127-202): none when the event is skipped by a
`continue`. -/
def buildCard (event : Event) : Option GameCard :=
  match scanConfId event.competitors none with
  | none => none
  | some cid =>
    match event.competitors.find? (fun c => c.homeAway == "away"),
          event.competitors.find? (fun c => c.homeAway == "home") with
    | some away, some home =>
      some
        { eventId := event.id
          confId := cid
          barClass := (conferenceClass cid).getD ""
          dateIso := event.date
          network := networkDisplay event.network
          awayConf :=
            match away.groupId with
            | some g => (groupIdMap g).getD ""
            | none => ""
          homeConf :=
            match home.groupId with
            | some g => (groupIdMap g).getD ""
            | none => ""
          awayConfClass :=
            match away.groupId with
            | some g => (confColorClass g).getD ""
            | none => ""
          homeConfClass :=
            match home.groupId with
            | some g => (confColorClass g).getD ""
            | none => ""
          awayName := away.name
          homeName := home.name
          awayLogo := away.logo
          homeLogo := home.logo
          spreadText := spreadLine event.odds home away
          overUnderText := overUnderLine event.odds }
    | _, _ => none

/-- Homepage list built by loadGames (script.js lines 120-211), as the
sequence of game cards in source order. -/
def loadGames (events : List Event) : List GameCard :=
  events.filterMap buildCard

/-! src/game.js: event summary shapes and the detail renderer -/

/-- One named statistic of a boxscore team. -/
structure StatEntry where
  name : String
  displayValue : String
deriving DecidableEq

/-- Team reference inside a boxscore team record. -/
structure BTeam where
  id : String
  displayName : String
  logo : Option String
deriving DecidableEq

/-- Boxscore team record with its statistics array. -/
structure BoxTeam where
  team : BTeam
  statistics : Option (List StatEntry)
deriving DecidableEq

/-- Boxscore of an event summary. -/
structure Boxscore where
  teams : Option (List BoxTeam)
deriving DecidableEq

/-- Venue address. -/
structure Address where
  city : String
  state : String
deriving DecidableEq

/-- Venue record; the address may be absent. -/
structure Venue where
  fullName : Option String
  address : Option Address
deriving DecidableEq

/-- Weather record of the gameInfo block. -/
structure Weather where
  temperature : Option ℚ
  highTemperature : Option ℚ
  lowTemperature : Option ℚ
  precipitation : Option ℚ
deriving DecidableEq

/-- The gameInfo block of an event summary. -/
structure GameInfo where
  venue : Option Venue
  weather : Option Weather
deriving DecidableEq

/-- ESPN event-summary document as consumed by game.js and rankings.js. -/
structure Summary where
  boxscore : Option Boxscore
  gameInfo : Option GameInfo
deriving DecidableEq

/-- Statistics map of one boxscore team (game.js lines 40-50); building by
prepending makes lookup return the latest assignment, matching JS
property overwrite. -/
def statMapOf (t : BoxTeam) : List (String × String) :=
  (t.statistics.getD []).foldl (fun m s => (s.name, s.displayValue) :: m) []

/-- Models `stats[key] || '–'` of game.js lines 70-71. -/
def jsOrDash (o : Option String) : String :=
  match o with
  | some s => if s = "" then "–" else s
  | none => "–"

/-- Fixed comparison rows of game.js lines 53-62, as key-label pairs. -/
def comparisonRows : List (String × String) :=
  [("totalPointsPerGame", "Points Per Game"),
   ("yardsPerGame", "Total Yards"),
   ("passingYardsPerGame", "Passing Yards"),
   ("rushingYardsPerGame", "Rushing Yards"),
   ("totalPointsPerGameAllowed", "Points Allowed"),
   ("yardsPerGameAllowed", "Yards Allowed"),
   ("passingYardsPerGameAllowed", "Pass Yards Allowed"),
   ("rushingYardsPerGameAllowed", "Rush Yards Allowed")]

/-- Display model of the rendered detail page. -/
structure RenderView where
  title : String
  rows : List (String × String × String)
  venueLine : Option String
  weatherLine : Option String
deriving DecidableEq

/-- Outcome of renderSummary: either the not-available early return of
game.js lines 35-38, or a rendered comparison view. -/
inductive RenderResult where
  | notAvailable
  | view (v : RenderView)
deriving DecidableEq

/-- Text placed in the page title element for each outcome. -/
def renderTitle : RenderResult → String
  | .notAvailable => "Summary not available"
  | .view v => v.title

/-- Venue line of game.js lines 80-82: accessing the address of a venue
that has a fullName but no address record throws a TypeError. -/
def venueLineOf : Option Venue → Except String (Option String)
  | none => .ok none
  | some v =>
    match v.fullName with
    | none => .ok none
    | some fn =>
      if fn = "" then .ok none
      else
        match v.address with
        | some a => .ok (some (fn ++ ", " ++ a.city ++ ", " ++ a.state))
        | none => .error "TypeError: cannot read address of undefined"

/-- Interpolation of a possibly-absent number in a template literal. -/
def jsNumDisplay (o : Option ℚ) : String :=
  (o.map ratToJsString).getD "undefined"

/-- Weather line of game.js lines 83-85. -/
def weatherLineOf : Option Weather → Option String
  | none => none
  | some w =>
    some (jsNumDisplay w.temperature ++ "F, High " ++
      jsNumDisplay w.highTemperature ++ "F, Low " ++
      jsNumDisplay w.lowTemperature ++ "F, Precip " ++
      jsNumDisplay w.precipitation ++ "%")

/-- renderSummary of game.js lines 30-87 as a display-model function; an
error value stands for a thrown exception. -/
def renderSummary (s : Summary) : Except String RenderResult :=
  match s.boxscore with
  | none => .ok .notAvailable
  | some b =>
    match b.teams with
    | some (t0 :: t1 :: _) =>
      let sA := statMapOf t0
      let sB := statMapOf t1
      let info := s.gameInfo.getD { venue := none, weather := none }
      match venueLineOf info.venue with
      | .error e => .error e
      | .ok vl =>
        .ok (.view
          { title := t0.team.displayName ++ " vs " ++ t1.team.displayName
            rows := comparisonRows.map (fun r =>
              (r.2, jsOrDash (sA.lookup r.1), jsOrDash (sB.lookup r.1)))
            venueLine := vl
            weatherLine := weatherLineOf info.weather })
    | _ => .ok .notAvailable

/-- A venue block is safe to render when a present fullName comes with an
address record; statistics play no role in this condition. -/
def venueSafe : Option Venue → Prop
  | none => True
  | some v =>
    match v.fullName with
    | none => True
    | some fn => fn = "" ∨ v.address.isSome

/-! src/rankings.js: ranking rows, aggregation and sorting -/

/-- Offense ranking row (both variants build the same fields). -/
structure OffRow where
  name : String
  groupId : Option Int
  ppg : ℚ
  yards : ℚ
  passYards : ℚ
  rushYards : ℚ
deriving DecidableEq

/-- Defense ranking row of the local-snapshot variant
(rankings.js lines 522-530). -/
structure DefRowLocal where
  name : String
  groupId : Option Int
  yardsAllowed : ℚ
  passAllowed : ℚ
  rushAllowed : ℚ
  ptsAllowed : ℚ
deriving DecidableEq

/-- Defense ranking row of the remote variant (rankings.js lines 176-184). -/
structure DefRowRemote where
  name : String
  groupId : Option Int
  ppgAllowed : ℚ
  yardsAllowed : ℚ
  passAllowed : ℚ
  rushAllowed : ℚ
deriving DecidableEq

/-- Models `(event.stats && event.stats[id]) || {}` of rankings.js
lines 446 and 521. -/
def statsOf (event : Event) (id : String) : List (String × ℚ) :=
  match event.stats with
  | some m => (m.lookup id).getD []
  | none => []

/-- Offense row construction of rankings.js lines 448-455. -/
def mkOffRow (comp : Competitor) (stats : List (String × ℚ)) : OffRow :=
  { name := comp.name
    groupId := comp.groupId
    ppg := jsOrZero (stats.lookup "totalPointsPerGame")
    yards := jsOrZero (stats.lookup "yardsPerGame")
    passYards := jsOrZero (stats.lookup "passingYardsPerGame")
    rushYards := jsOrZero (stats.lookup "rushingYardsPerGame") }

/-- Defense row construction of rankings.js lines 522-530. -/
def mkDefRowLocal (comp : Competitor) (stats : List (String × ℚ)) : DefRowLocal :=
  { name := comp.name
    groupId := comp.groupId
    yardsAllowed := jsOrZero (stats.lookup "yardsPerGameAllowed")
    passAllowed := jsOrZero (stats.lookup "passingYardsPerGameAllowed")
    rushAllowed := jsOrZero (stats.lookup "rushingYardsPerGameAllowed")
    ptsAllowed := jsOrZero (stats.lookup "totalPointsPerGameAllowed") }

/-- Team aggregation loop of the local offense builder
(rankings.js lines 440-458). -/
def offenseAggLocal (events : List Event) : List (String × OffRow) :=
  events.foldl (fun m event =>
    event.competitors.foldl (fun m comp =>
      if qualifies comp then
        if (m.lookup comp.id).isSome then m
        else m ++ [(comp.id, mkOffRow comp (statsOf event comp.id))]
      else m) m) []

/-- Team aggregation loop of the local defense builder
(rankings.js lines 515-533). -/
def defenseAggLocal (events : List Event) : List (String × DefRowLocal) :=
  events.foldl (fun m event =>
    event.competitors.foldl (fun m comp =>
      if qualifies comp then
        if (m.lookup comp.id).isSome then m
        else m ++ [(comp.id, mkDefRowLocal comp (statsOf event comp.id))]
      else m) m) []

/-- Team metadata cached by getTeamInfo (rankings.js lines 42-49). -/
structure TeamInfo where
  groupId : Option Int
  name : String
deriving DecidableEq

/-- The groups block of a remote team document. -/
structure TeamGroups where
  id : Option String
deriving DecidableEq

/-- Remote team document shape used by getTeamInfo. -/
structure TeamResp where
  groups : Option TeamGroups
  displayName : Option String
  name : Option String
deriving DecidableEq

/-- The remote world of the remote-mode variant: team documents, event
summaries and the scoreboard event-id list; none models a failed fetch. -/
structure RemoteEnv where
  teamResp : String → Option TeamResp
  summaryResp : String → Option Summary
  scoreboardEvents : List String

/-- Cache plus fetch counter threaded through the remote builders; the
counter counts remote team fetches issued. -/
structure CacheState where
  cache : List (String × TeamInfo)
  fetches : Nat
deriving DecidableEq

/-- Parse of a remote team document (rankings.js lines 42-45). -/
def teamInfoOfResp (r : TeamResp) : TeamInfo :=
  { groupId :=
      match r.groups with
      | some gs =>
        match gs.id with
        | some s => if s = "" then none else jsParseInt s
        | none => none
      | none => none
    name := jsOrS r.displayName (jsOrS r.name "") }

/-- Team info computed for an id from the remote world, covering both the
parsed-response and the catch branch of getTeamInfo. -/
def infoOf (env : RemoteEnv) (teamId : String) : TeamInfo :=
  match env.teamResp teamId with
  | some r => teamInfoOfResp r
  | none => { groupId := none, name := "" }

/-- getTeamInfo of rankings.js lines 35-51: return the cached value when
present, else fetch once, record the result and count the fetch. -/
def getTeamInfo (env : RemoteEnv) (teamId : String) (st : CacheState) :
    TeamInfo × CacheState :=
  match st.cache.lookup teamId with
  | some v => (v, st)
  | none =>
    (infoOf env teamId,
     { cache := st.cache ++ [(teamId, infoOf env teamId)], fetches := st.fetches + 1 })

/-- One entry of fetchEventTeamStats output (rankings.js lines 70-75). -/
structure TeamEntry where
  id : String
  name : String
  stats : List (String × Option ℚ)
deriving DecidableEq

/-- fetchEventTeamStats of rankings.js lines 61-81. -/
def fetchEventTeamStats (env : RemoteEnv) (eventId : String) : List TeamEntry :=
  match env.summaryResp eventId with
  | none => []
  | some summary =>
    match summary.boxscore with
    | none => []
    | some b =>
      match b.teams with
      | none => []
      | some ts =>
        if ts.length < 2 then []
        else ts.map (fun t =>
          { id := t.team.id
            name := t.team.displayName
            stats := (t.statistics.getD []).foldl
              (fun m s => (s.name, jsParseFloat s.displayValue) :: m) [] })

/-- Test `!info.groupId || !P4_GROUPS.includes(info.groupId)` of
rankings.js lines 108 and 175, in positive form. -/
def qualifiesInfo (info : TeamInfo) : Bool :=
  match info.groupId with
  | some g => decide (g ≠ 0) && P4_GROUPS.contains g
  | none => false

/-- Offense row construction of the remote builder
(rankings.js lines 111-118). -/
def mkOffRowRemote (team : TeamEntry) (info : TeamInfo) : OffRow :=
  { name := team.name
    groupId := info.groupId
    ppg := jsOrZeroN (team.stats.lookup "totalPointsPerGame")
    yards := jsOrZeroN (team.stats.lookup "yardsPerGame")
    passYards := jsOrZeroN (team.stats.lookup "passingYardsPerGame")
    rushYards := jsOrZeroN (team.stats.lookup "rushingYardsPerGame") }

/-- Defense row construction of the remote builder
(rankings.js lines 177-184). -/
def mkDefRowRemote (team : TeamEntry) (info : TeamInfo) : DefRowRemote :=
  { name := team.name
    groupId := info.groupId
    ppgAllowed := jsOrZeroN (team.stats.lookup "totalPointsPerGameAllowed")
    yardsAllowed := jsOrZeroN (team.stats.lookup "yardsPerGameAllowed")
    passAllowed := jsOrZeroN (team.stats.lookup "passingYardsPerGameAllowed")
    rushAllowed := jsOrZeroN (team.stats.lookup "rushingYardsPerGameAllowed") }

/-- Shared inner-loop body of the two remote ranking builders
(rankings.js lines 105-120 and 173-186), parameterized by the row
constructor; the cache state is threaded through each getTeamInfo call. -/
def remoteRowStep {β : Type} (mk : TeamEntry → TeamInfo → β) (env : RemoteEnv)
    (acc : CacheState × List (String × β)) (team : TeamEntry) :
    CacheState × List (String × β) :=
  if qualifiesInfo (getTeamInfo env team.id acc.1).1 then
    if ((acc.2).lookup team.id).isSome then
      ((getTeamInfo env team.id acc.1).2, acc.2)
    else
      ((getTeamInfo env team.id acc.1).2,
       acc.2 ++ [(team.id, mk team (getTeamInfo env team.id acc.1).1)])
  else ((getTeamInfo env team.id acc.1).2, acc.2)

/-- Remote offense aggregation (rankings.js lines 98-122). -/
def offenseAggRemote (env : RemoteEnv) : CacheState × List (String × OffRow) :=
  env.scoreboardEvents.foldl
    (fun acc eid =>
      (fetchEventTeamStats env eid).foldl (remoteRowStep mkOffRowRemote env) acc)
    ({ cache := [], fetches := 0 }, [])

/-- Remote defense aggregation (rankings.js lines 166-188). -/
def defenseAggRemote (env : RemoteEnv) : CacheState × List (String × DefRowRemote) :=
  env.scoreboardEvents.foldl
    (fun acc eid =>
      (fetchEventTeamStats env eid).foldl (remoteRowStep mkDefRowRemote env) acc)
    ({ cache := [], fetches := 0 }, [])

/-- Generic first-seen-wins map-insertion step shared by all four
aggregation loops. -/
def dedupStep {α β : Type} (key : α → String) (pred : α → Bool) (mk : α → β)
    (m : List (String × β)) (x : α) : List (String × β) :=
  if pred x then
    if (m.lookup (key x)).isSome then m else m ++ [(key x, mk x)]
  else m

/-- Fold of dedupStep over an occurrence list. -/
def dedupFold {α β : Type} (key : α → String) (pred : α → Bool) (mk : α → β)
    (xs : List α) (m : List (String × β)) : List (String × β) :=
  xs.foldl (dedupStep key pred mk) m

/-- Event-competitor occurrence pairs in traversal order of the nested
local aggregation loops. -/
def occPairs (events : List Event) : List (Event × Competitor) :=
  events.flatMap (fun e => e.competitors.map (fun c => (e, c)))

/-- Team-entry occurrences in traversal order of the remote loops. -/
def teamOccs (env : RemoteEnv) : List TeamEntry :=
  env.scoreboardEvents.flatMap (fetchEventTeamStats env)

/-- First qualifying occurrence of a team id in the local traversal order. -/
def firstQualOcc (events : List Event) (id : String) :
    Option (Event × Competitor) :=
  (occPairs events).find? (fun p => qualifies p.2 && p.2.id == id)

/-- First Power-4 occurrence of a team id in the remote traversal order. -/
def firstQualTeamOcc (env : RemoteEnv) (id : String) : Option TeamEntry :=
  (teamOccs env).find? (fun t => qualifiesInfo (infoOf env t.id) && t.id == id)

/-- A cache is consistent with the remote world when every entry stores
exactly the info computed from the world. -/
def consistent (env : RemoteEnv) (cache : List (String × TeamInfo)) : Prop :=
  ∀ teamId v, cache.lookup teamId = some v → v = infoOf env teamId

/-- Sort relation of `teams.sort((a, b) => b.ppg - a.ppg)` of rankings.js
lines 124 and 460: a precedes b when the comparator is non-positive. -/
def ppgDesc (a b : OffRow) : Prop := b.ppg ≤ a.ppg

instance : DecidableRel ppgDesc :=
  fun a b => inferInstanceAs (Decidable (b.ppg ≤ a.ppg))

instance : IsTotal OffRow ppgDesc := ⟨fun a b => le_total b.ppg a.ppg⟩

instance : IsTrans OffRow ppgDesc := ⟨fun _ _ _ h1 h2 => le_trans h2 h1⟩

/-- Sort relation of `teams.sort((a, b) => a.ppgAllowed - b.ppgAllowed)`
of rankings.js line 189. -/
def ptsAllowedAsc (a b : DefRowRemote) : Prop := a.ppgAllowed ≤ b.ppgAllowed

instance : DecidableRel ptsAllowedAsc :=
  fun a b => inferInstanceAs (Decidable (a.ppgAllowed ≤ b.ppgAllowed))

instance : IsTotal DefRowRemote ptsAllowedAsc :=
  ⟨fun a b => le_total a.ppgAllowed b.ppgAllowed⟩

instance : IsTrans DefRowRemote ptsAllowedAsc :=
  ⟨fun _ _ _ h1 h2 => le_trans h1 h2⟩

/-- Sort relation of `teams.sort((a, b) => a.yardsAllowed - b.yardsAllowed)`
of rankings.js line 536. -/
def yardsAllowedAsc (a b : DefRowLocal) : Prop := a.yardsAllowed ≤ b.yardsAllowed

instance : DecidableRel yardsAllowedAsc :=
  fun a b => inferInstanceAs (Decidable (a.yardsAllowed ≤ b.yardsAllowed))

instance : IsTotal DefRowLocal yardsAllowedAsc :=
  ⟨fun a b => le_total a.yardsAllowed b.yardsAllowed⟩

instance : IsTrans DefRowLocal yardsAllowedAsc :=
  ⟨fun _ _ _ h1 h2 => le_trans h1 h2⟩

/-- Stable sort of the offense builders (rankings.js lines 124 and 460);
JavaScript array sort is stable, so insertion sort with the comparator
order models it. -/
def sortOffense (teams : List OffRow) : List OffRow :=
  teams.insertionSort ppgDesc

/-- Stable sort of the remote defense builder (rankings.js line 189). -/
def sortDefenseRemote (teams : List DefRowRemote) : List DefRowRemote :=
  teams.insertionSort ptsAllowedAsc

/-- Stable sort of the local defense builder (rankings.js line 536). -/
def sortDefenseLocal (teams : List DefRowLocal) : List DefRowLocal :=
  teams.insertionSort yardsAllowedAsc

/-! src/rankings.js: category dispatch -/

/-- ASCII lower-casing of one character, as done by toLowerCase on the
category values in play. -/
def charToLowerCase (c : Char) : Char :=
  if 'A' ≤ c ∧ c ≤ 'Z' then Char.ofNat (c.toNat + 32) else c

/-- Models `s.toLowerCase()`. -/
def jsToLowerCase (s : String) : String :=
  ⟨s.data.map charToLowerCase⟩

/-- Action taken by the rankings page load handler. -/
inductive RankAction where
  | buildOffense
  | buildDefense
  | buildReturning
  | buildSos
  | showInstructions (title description containerHTML : String)
deriving DecidableEq

/-- handleLoad of rankings.js lines 735-756: dispatch on the lower-cased
category query parameter, with an instructional default. -/
def handleLoad (categoryParam : Option String) : RankAction :=
  let category := jsToLowerCase (categoryParam.getD "")
  if category = "offense" then .buildOffense
  else if category = "defense" then .buildDefense
  else if category = "returning" then .buildReturning
  else if category = "sos" then .buildSos
  else
    .showInstructions "Rankings"
      "Please select a category from the navigation menu to view rankings." ""

/-! Concrete fixtures used by witnesses and counterexamples -/

/-- Sample home competitor with abbreviation ABC, SEC conference. -/
def homeABC : Competitor :=
  { id := "57", name := "Home Team", abbreviation := "ABC", homeAway := "home",
    groupId := some 8, logo := none }

/-- Sample away competitor with abbreviation XYZ, ACC conference. -/
def awayXYZ : Competitor :=
  { id := "61", name := "Away Team", abbreviation := "XYZ", homeAway := "away",
    groupId := some 1, logo := none }

/-- Odds record with spread -3.5. -/
def oddsNeg : Odds := { spread := some (-(mkRat 7 2)), overUnder := none }

/-- Odds record with spread 6. -/
def oddsPos : Odds := { spread := some (mkRat 6 1), overUnder := none }

/-- Event whose competitors are both outside the Power-4 set. -/
def evNoP4 : Event :=
  { id := "eNP", date := "2025-09-06T16:00:00Z", network := none,
    competitors :=
      [{ id := "9", name := "A", abbreviation := "AA", homeAway := "away",
         groupId := some 12, logo := none },
       { id := "10", name := "B", abbreviation := "BB", homeAway := "home",
         groupId := none, logo := none }],
    odds := none, stats := none }

/-- Event whose two competitors both qualify, under different conferences. -/
def evBothQual : Event :=
  { id := "eBQ", date := "2025-09-06T16:00:00Z", network := none,
    competitors := [awayXYZ, homeABC], odds := none, stats := none }

/-- Same matchup with the competitor list in the other order. -/
def evBothQualRev : Event :=
  { id := "eBQ2", date := "2025-09-06T16:00:00Z", network := none,
    competitors := [homeABC, awayXYZ], odds := none, stats := none }

/-- Event with a qualifying away team but no entry tagged home. -/
def evNoHome : Event :=
  { id := "eNH", date := "2025-09-06T16:00:00Z", network := none,
    competitors := [awayXYZ], odds := none, stats := none }

/-- Offense rows with points per game 10, 30, 20. -/
def offExample : List OffRow :=
  [{ name := "T1", groupId := some 1, ppg := 10, yards := 0, passYards := 0, rushYards := 0 },
   { name := "T2", groupId := some 4, ppg := 30, yards := 0, passYards := 0, rushYards := 0 },
   { name := "T3", groupId := some 5, ppg := 20, yards := 0, passYards := 0, rushYards := 0 }]

/-- Remote defense rows with points allowed 10, 30, 20. -/
def defRemoteExample : List DefRowRemote :=
  [{ name := "T1", groupId := some 1, ppgAllowed := 10, yardsAllowed := 0,
     passAllowed := 0, rushAllowed := 0 },
   { name := "T2", groupId := some 4, ppgAllowed := 30, yardsAllowed := 0,
     passAllowed := 0, rushAllowed := 0 },
   { name := "T3", groupId := some 5, ppgAllowed := 20, yardsAllowed := 0,
     passAllowed := 0, rushAllowed := 0 }]

/-- Local defense rows with points allowed 10, 30, 20 but yards allowed
in the opposite order 300, 100, 200. -/
def defLocalExample : List DefRowLocal :=
  [{ name := "T1", groupId := some 1, yardsAllowed := 300, passAllowed := 0,
     rushAllowed := 0, ptsAllowed := 10 },
   { name := "T2", groupId := some 4, yardsAllowed := 100, passAllowed := 0,
     rushAllowed := 0, ptsAllowed := 30 },
   { name := "T3", groupId := some 5, yardsAllowed := 200, passAllowed := 0,
     rushAllowed := 0, ptsAllowed := 20 }]

/-- Remote world in which every fetch fails and the scoreboard is empty. -/
def envEmpty : RemoteEnv :=
  { teamResp := fun _ => none, summaryResp := fun _ => none, scoreboardEvents := [] }

/-- Summary with no boxscore, as returned for an unknown event id. -/
def emptySummary : Summary := { boxscore := none, gameInfo := none }

/-- Boxscore team with a single statistic present. -/
def statsTeamA : BoxTeam :=
  { team := { id := "1", displayName := "Alpha", logo := none },
    statistics := some [{ name := "totalPointsPerGame", displayValue := "31.5" }] }

/-- Boxscore team with no statistics at all. -/
def statsTeamB : BoxTeam :=
  { team := { id := "2", displayName := "Beta", logo := none },
    statistics := none }

/-- Summary with two teams whose statistics are mostly missing. -/
def twoTeamSummary : Summary :=
  { boxscore := some { teams := some [statsTeamA, statsTeamB] }, gameInfo := none }

end Power4

namespace Power4

/-! Helper lemmas about the homepage scan -/

theorem append_space_ne_empty (a b : String) : a ++ " " ++ b ≠ "" := by
  intro h
  have hl := congrArg String.length h
  simp [String.length_append] at hl
  exact absurd hl.1.2 (by decide)

theorem qualifies_iff (c : Competitor) :
    qualifies c = true ↔ ∃ g, c.groupId = some g ∧ g ∈ P4_GROUPS := by
  cases hg : c.groupId with
  | none => simp [qualifies, hg]
  | some g =>
    simp only [qualifies, hg, Bool.and_eq_true, decide_eq_true_eq, Option.some.injEq]
    constructor
    · rintro ⟨-, hmem⟩
      exact ⟨g, rfl, by simpa using hmem⟩
    · rintro ⟨g', hg', hmem⟩
      subst hg'
      refine ⟨?_, by simpa using hmem⟩
      simp [P4_GROUPS] at hmem
      rcases hmem with h | h | h | h <;> simp [h]

theorem scanConfId_of_no_qual (l : List Competitor) (acc : Option Int)
    (h : ∀ c ∈ l, qualifies c = false) : scanConfId l acc = acc := by
  induction l generalizing acc with
  | nil => rfl
  | cons c rest ih =>
    have hc : qualifies c = false := h c (List.mem_cons_self ..)
    simp only [scanConfId, hc, Bool.false_eq_true, if_false]
    exact ih acc fun d hd => h d (List.mem_cons_of_mem _ hd)

theorem exists_qual_of_scanConfId_ne (l : List Competitor)
    (h : scanConfId l none ≠ none) : ∃ c ∈ l, qualifies c = true := by
  by_contra hn
  push_neg at hn
  exact h (scanConfId_of_no_qual l none fun c hc => by simpa using hn c hc)

theorem buildCard_eq_none_of_scan_none (e : Event)
    (h : scanConfId e.competitors none = none) : buildCard e = none := by
  simp [buildCard, h]

/-- C1: the homepage list built by loadGames includes a card for an event
only if at least one of its competitors has a non-null conference group id
in the set P4_GROUPS = {1, 4, 5, 8}; every event in which neither
competitor has a group id in that set is excluded from the output. -/
theorem homepage_only_p4 (events : List Event) :
    (∀ card ∈ loadGames events, ∃ e ∈ events, buildCard e = some card ∧
        ∃ c ∈ e.competitors, ∃ g, c.groupId = some g ∧ g ∈ P4_GROUPS) ∧
    (∀ e ∈ events, (∀ c ∈ e.competitors, ∀ g, c.groupId = some g → g ∉ P4_GROUPS) →
        buildCard e = none) := by
  constructor
  · intro card hcard
    obtain ⟨e, he, hbuild⟩ := List.mem_filterMap.mp hcard
    refine ⟨e, he, hbuild, ?_⟩
    cases hscan : scanConfId e.competitors none with
    | none =>
      rw [buildCard_eq_none_of_scan_none e hscan] at hbuild
      exact absurd hbuild (by simp)
    | some cid =>
      obtain ⟨c, hc, hq⟩ := exists_qual_of_scanConfId_ne e.competitors (by simp [hscan])
      exact ⟨c, hc, (qualifies_iff c).mp hq⟩
  · intro e _ hnone
    apply buildCard_eq_none_of_scan_none
    apply scanConfId_of_no_qual
    intro c hc
    by_contra hq
    rw [Bool.not_eq_false] at hq
    obtain ⟨g, hg, hmem⟩ := (qualifies_iff c).mp hq
    exact hnone c hc g hg hmem

/-- C1 witness: a concrete event with no Power-4 competitor yields no card. -/
theorem homepage_only_p4_witness : buildCard evNoP4 = none :=
  (homepage_only_p4 [evNoP4]).2 evNoP4 (by simp) (by decide)

/-- C2: the spread display resolves to exactly one of three cases: a
numeric spread below zero gives the home abbreviation followed by the
absolute spread, a numeric spread above zero gives the away abbreviation
followed by the spread, and an absent or zero spread gives the literal
Pick placeholder; the result is never the empty string. -/
theorem spreadLine_cases (odds : Option Odds) (home away : Competitor) :
    (∀ s : ℚ, (odds.getD { spread := none, overUnder := none }).spread = some s →
      ((s < 0 → spreadLine odds home away =
          home.abbreviation ++ " " ++ ratToJsString (-s)) ∧
       (0 < s → spreadLine odds home away =
          away.abbreviation ++ " " ++ ratToJsString s) ∧
       (s = 0 → spreadLine odds home away = "Pick"))) ∧
    ((odds.getD { spread := none, overUnder := none }).spread = none →
      spreadLine odds home away = "Pick") ∧
    spreadLine odds home away ≠ "" := by
  refine ⟨?_, ?_, ?_⟩
  · intro s hs
    refine ⟨fun hneg => ?_, fun hpos => ?_, fun hzero => ?_⟩
    · simp [spreadLine, hs, hneg, mathAbs]
    · simp [spreadLine, hs, hpos, not_lt_of_gt hpos]
    · simp [spreadLine, hs, hzero]
  · intro hs
    simp [spreadLine, hs]
  · cases hs : (odds.getD { spread := none, overUnder := none }).spread with
    | none => simp [spreadLine, hs]
    | some s =>
      rcases lt_trichotomy s 0 with hneg | hzero | hpos
      · simp only [spreadLine, hs, hneg, if_pos]
        exact append_space_ne_empty _ _
      · simp [spreadLine, hs, hzero]
      · simp only [spreadLine, hs, hpos, not_lt_of_gt hpos, if_neg, if_pos,
          not_false_eq_true]
        exact append_space_ne_empty _ _

/-- C2 witness: spread -3.5 gives "ABC 3.5", spread 6 gives "XYZ 6",
absent spread gives "Pick". -/
theorem spreadLine_cases_witness :
    spreadLine (some oddsNeg) homeABC awayXYZ = "ABC 3.5" ∧
    spreadLine (some oddsPos) homeABC awayXYZ = "XYZ 6" ∧
    spreadLine none homeABC awayXYZ = "Pick" := by
  refine ⟨?_, ?_, ?_⟩
  · have h := ((spreadLine_cases (some oddsNeg) homeABC awayXYZ).1
      (-(mkRat 7 2)) (by decide)).1 (by decide)
    rw [h]; decide
  · have h := ((spreadLine_cases (some oddsPos) homeABC awayXYZ).1
      (mkRat 6 1) (by decide)).2.1 (by decide)
    rw [h]; decide
  · exact (spreadLine_cases none homeABC awayXYZ).2.1 (by decide)

/-- C3: when both competitors qualify under different conference ids, the
conference id recorded for the card is the home team group id, whichever
of the two orders the competitor list uses. -/
theorem homeConf_tiebreak (e : Event) (a h : Competitor)
    (horder : e.competitors = [a, h] ∨ e.competitors = [h, a])
    (ha : a.homeAway = "away") (hh : h.homeAway = "home")
    (qa : qualifies a = true) (qh : qualifies h = true)
    (_hne : a.groupId ≠ h.groupId) :
    (buildCard e).map GameCard.confId = h.groupId := by
  obtain ⟨g, hg, -⟩ := (qualifies_iff h).mp qh
  have hha : ¬ a.homeAway = "home" := by rw [ha]; decide
  have heqaa : (("away" : String) == "away") = true := by decide
  have heqha : (("home" : String) == "away") = false := by decide
  have heqhh : (("home" : String) == "home") = true := by decide
  have heqah : (("away" : String) == "home") = false := by decide
  have hscan : scanConfId e.competitors none = some g := by
    rcases horder with h1 | h1 <;> rw [h1] <;>
      simp [scanConfId, qa, qh, hh, hha, hg]
  have hfa : e.competitors.find? (fun c => c.homeAway == "away") = some a := by
    rcases horder with h1 | h1 <;> rw [h1] <;>
      simp [List.find?, ha, hh, heqaa, heqha]
  have hfh : e.competitors.find? (fun c => c.homeAway == "home") = some h := by
    rcases horder with h1 | h1 <;> rw [h1] <;>
      simp [List.find?, ha, hh, heqhh, heqah]
  rw [buildCard, hscan, hfa, hfh, hg]
  rfl

/-- C3 witness: with competitors listed away-first, the card records the
home team SEC id 8, not the away team ACC id 1. -/
theorem homeConf_tiebreak_witness :
    (buildCard evBothQual).map GameCard.confId = homeABC.groupId ∧
    (buildCard evBothQualRev).map GameCard.confId = homeABC.groupId :=
  ⟨homeConf_tiebreak evBothQual awayXYZ homeABC (Or.inl rfl)
      (by decide) (by decide) (by decide) (by decide) (by decide),
   homeConf_tiebreak evBothQualRev awayXYZ homeABC (Or.inr rfl)
      (by decide) (by decide) (by decide) (by decide) (by decide)⟩

/-- C10: an event whose competitor list has no entry tagged away, or no
entry tagged home, is dropped entirely even when a competitor qualifies;
every emitted card comes from an event where both lookups succeed, so card
construction never dereferences a missing home or away reference. -/
theorem drop_missing_home_away (events : List Event) :
    (∀ e ∈ events, ((∀ c ∈ e.competitors, c.homeAway ≠ "away") ∨
        (∀ c ∈ e.competitors, c.homeAway ≠ "home")) → buildCard e = none) ∧
    (∀ card ∈ loadGames events, ∃ e ∈ events, ∃ away home,
        e.competitors.find? (fun c => c.homeAway == "away") = some away ∧
        e.competitors.find? (fun c => c.homeAway == "home") = some home ∧
        buildCard e = some card) := by
  constructor
  · intro e _ hmiss
    cases hscan : scanConfId e.competitors none with
    | none => exact buildCard_eq_none_of_scan_none e hscan
    | some cid =>
      rcases hmiss with hmiss | hmiss
      · have hfind : e.competitors.find? (fun c => c.homeAway == "away") = none := by
          rw [List.find?_eq_none]
          intro c hc
          simpa using hmiss c hc
        simp [buildCard, hscan, hfind]
      · have hfind : e.competitors.find? (fun c => c.homeAway == "home") = none := by
          rw [List.find?_eq_none]
          intro c hc
          simpa using hmiss c hc
        cases hfa : e.competitors.find? (fun c => c.homeAway == "away") <;>
          simp [buildCard, hscan, hfind, hfa]
  · intro card hcard
    obtain ⟨e, he, hbuild⟩ := List.mem_filterMap.mp hcard
    refine ⟨e, he, ?_⟩
    cases hscan : scanConfId e.competitors none with
    | none =>
      rw [buildCard_eq_none_of_scan_none e hscan] at hbuild
      exact absurd hbuild (by simp)
    | some cid =>
      cases hfa : e.competitors.find? (fun c => c.homeAway == "away") with
      | none =>
        rw [buildCard, hscan, hfa] at hbuild
        cases hfh : e.competitors.find? (fun c => c.homeAway == "home") <;>
          rw [hfh] at hbuild <;> exact absurd hbuild (by simp)
      | some away =>
        cases hfh : e.competitors.find? (fun c => c.homeAway == "home") with
        | none =>
          rw [buildCard, hscan, hfa, hfh] at hbuild
          exact absurd hbuild (by simp)
        | some home => exact ⟨away, home, rfl, rfl, hbuild⟩

/-- C10 witness: a concrete event with a qualifying away team but no home
entry produces no card. -/
theorem drop_missing_home_away_witness : buildCard evNoHome = none :=
  (drop_missing_home_away [evNoHome]).1 evNoHome (by simp) (Or.inr (by decide))

/-! Helper lemmas about association-list lookups and the shared
first-seen-wins aggregation -/

theorem lookup_append {β : Type} (l1 l2 : List (String × β)) (a : String) :
    (l1 ++ l2).lookup a = (l1.lookup a).or (l2.lookup a) := by
  induction l1 with
  | nil => simp [List.lookup, Option.or]
  | cons p t ih =>
    obtain ⟨k, v⟩ := p
    cases hk : a == k with
    | true => simp [List.lookup_cons, hk, Option.or]
    | false => simp [List.lookup_cons, hk, ih]

theorem lookup_none_not_mem {β : Type} {m : List (String × β)} {k : String}
    (h : m.lookup k = none) : k ∉ m.map Prod.fst := by
  induction m with
  | nil => simp
  | cons p t ih =>
    obtain ⟨k', v⟩ := p
    rw [List.lookup_cons] at h
    cases hk : k == k' with
    | true => rw [hk] at h; simp at h
    | false =>
      rw [hk] at h
      simp only [List.map_cons, List.mem_cons]
      rintro (heq | hmem)
      · rw [heq] at hk; simp at hk
      · exact ih h hmem

theorem lookup_singleton_self {β : Type} (k : String) (v : β) :
    ([(k, v)] : List (String × β)).lookup k = some v := by
  simp [List.lookup_cons]

theorem lookup_singleton_ne {β : Type} (k a : String) (v : β) (h : a ≠ k) :
    ([(k, v)] : List (String × β)).lookup a = none := by
  have hk : (a == k) = false := by simpa using h
  simp [List.lookup_cons, hk]

theorem dedupFold_lookup {α β : Type} (key : α → String) (pred : α → Bool)
    (mk : α → β) (xs : List α) (m : List (String × β)) (id : String) :
    (dedupFold key pred mk xs m).lookup id =
      (m.lookup id).or ((xs.find? (fun x => pred x && key x == id)).map mk) := by
  induction xs generalizing m with
  | nil =>
    show m.lookup id = (m.lookup id).or none
    cases m.lookup id <;> rfl
  | cons x xs ih =>
    show (dedupFold key pred mk xs (dedupStep key pred mk m x)).lookup id = _
    rw [ih]
    cases hp : pred x with
    | false =>
      have hfind : (x :: xs).find? (fun y => pred y && key y == id) =
          xs.find? (fun y => pred y && key y == id) := by
        simp [List.find?, hp]
      rw [hfind]
      have hstep : dedupStep key pred mk m x = m := by
        unfold dedupStep
        rw [hp]
        rfl
      rw [hstep]
    | true =>
      by_cases hkid : key x = id
      · subst hkid
        have hfind : (x :: xs).find? (fun y => pred y && key y == key x) =
            some x := by
          simp [List.find?, hp]
        rw [hfind]
        cases hms : m.lookup (key x) with
        | some v =>
          have hstep : dedupStep key pred mk m x = m := by
            unfold dedupStep
            rw [hp, if_pos rfl, hms]
            rfl
          rw [hstep, hms]
          rfl
        | none =>
          have hstep : dedupStep key pred mk m x = m ++ [(key x, mk x)] := by
            unfold dedupStep
            rw [hp, if_pos rfl, hms]
            rfl
          rw [hstep, lookup_append, hms, lookup_singleton_self]
          rfl
      · have hbk : (key x == id) = false := by simpa using hkid
        have hfind : (x :: xs).find? (fun y => pred y && key y == id) =
            xs.find? (fun y => pred y && key y == id) := by
          simp [List.find?, hp, hbk]
        rw [hfind]
        have hstep : (dedupStep key pred mk m x).lookup id = m.lookup id := by
          unfold dedupStep
          rw [hp, if_pos rfl]
          cases hms : m.lookup (key x) with
          | some v => rfl
          | none =>
            show (m ++ [(key x, mk x)]).lookup id = m.lookup id
            rw [lookup_append,
              lookup_singleton_ne (key x) id (mk x) (fun he => hkid he.symm)]
            cases m.lookup id <;> rfl
        rw [hstep]

theorem dedupFold_nodup_keys {α β : Type} (key : α → String) (pred : α → Bool)
    (mk : α → β) (xs : List α) (m : List (String × β))
    (h : (m.map Prod.fst).Nodup) :
    ((dedupFold key pred mk xs m).map Prod.fst).Nodup := by
  induction xs generalizing m with
  | nil => exact h
  | cons x xs ih =>
    refine ih (dedupStep key pred mk m x) ?_
    unfold dedupStep
    split
    · split
      · exact h
      · rename_i hnotsome
        have hnone : m.lookup (key x) = none := by
          cases hml : m.lookup (key x) with
          | none => rfl
          | some v => rw [hml] at hnotsome; simp at hnotsome
        rw [List.map_append, List.nodup_append]
        refine ⟨h, List.nodup_singleton _, ?_⟩
        intro a ha hb
        simp only [List.map_cons, List.map_nil, List.mem_singleton] at hb
        rw [hb] at ha
        exact lookup_none_not_mem hnone ha
    · exact h

theorem foldl_flat {α β γ : Type} (f : α → List β) (g : γ → β → γ)
    (l : List α) (init : γ) :
    (l.flatMap f).foldl g init =
      l.foldl (fun acc a => (f a).foldl g acc) init := by
  induction l generalizing init with
  | nil => rfl
  | cons a l ih =>
    rw [List.flatMap_cons, List.foldl_append, List.foldl_cons, ih]

theorem offenseAggLocal_eq (events : List Event) :
    offenseAggLocal events =
      dedupFold (fun p => p.2.id) (fun p => qualifies p.2)
        (fun p => mkOffRow p.2 (statsOf p.1 p.2.id)) (occPairs events) [] := by
  unfold offenseAggLocal dedupFold occPairs
  rw [foldl_flat]
  congr 1
  funext m e
  rw [List.foldl_map]
  rfl

theorem defenseAggLocal_eq (events : List Event) :
    defenseAggLocal events =
      dedupFold (fun p => p.2.id) (fun p => qualifies p.2)
        (fun p => mkDefRowLocal p.2 (statsOf p.1 p.2.id)) (occPairs events) [] := by
  unfold defenseAggLocal dedupFold occPairs
  rw [foldl_flat]
  congr 1
  funext m e
  rw [List.foldl_map]
  rfl

theorem getTeamInfo_consistent (env : RemoteEnv) (teamId : String)
    (st : CacheState) (hc : consistent env st.cache) :
    (getTeamInfo env teamId st).1 = infoOf env teamId ∧
    consistent env (getTeamInfo env teamId st).2.cache := by
  unfold getTeamInfo
  cases hl : st.cache.lookup teamId with
  | some v =>
    exact ⟨hc teamId v hl, hc⟩
  | none =>
    refine ⟨rfl, ?_⟩
    intro k w hk
    rw [lookup_append] at hk
    cases hsk : st.cache.lookup k with
    | some w' =>
      rw [hsk] at hk
      simp only [Option.or] at hk
      have hww := Option.some.inj hk
      rw [← hww]
      exact hc k w' hsk
    | none =>
      rw [hsk] at hk
      simp only [Option.or] at hk
      rw [List.lookup_cons] at hk
      cases hbk : k == teamId with
      | true =>
        have heq : k = teamId := by simpa using hbk
        rw [hbk] at hk
        have hww := Option.some.inj hk
        rw [← hww, heq]
      | false => rw [hbk] at hk; simp at hk

theorem remote_fold_teams {β : Type} (mk : TeamEntry → TeamInfo → β)
    (env : RemoteEnv) (ts : List TeamEntry) (st : CacheState)
    (m : List (String × β)) (hc : consistent env st.cache) :
    (ts.foldl (remoteRowStep mk env) (st, m)).2 =
      dedupFold (fun t => t.id) (fun t => qualifiesInfo (infoOf env t.id))
        (fun t => mk t (infoOf env t.id)) ts m ∧
    consistent env ((ts.foldl (remoteRowStep mk env) (st, m)).1.cache) := by
  induction ts generalizing st m with
  | nil => exact ⟨rfl, hc⟩
  | cons t ts ih =>
    obtain ⟨hinfo, hc'⟩ := getTeamInfo_consistent env t.id st hc
    have hstep : remoteRowStep mk env (st, m) t =
        ((getTeamInfo env t.id st).2,
         dedupStep (fun t => t.id) (fun t => qualifiesInfo (infoOf env t.id))
           (fun t => mk t (infoOf env t.id)) m t) := by
      simp only [remoteRowStep, dedupStep, hinfo]
      split <;> try rfl
      split <;> rfl
    rw [List.foldl_cons, hstep]
    exact ih (getTeamInfo env t.id st).2 _ hc'

theorem consistent_nil (env : RemoteEnv) : consistent env [] := by
  intro k v hk
  simp [List.lookup] at hk

theorem offenseAggRemote_eq (env : RemoteEnv) :
    (offenseAggRemote env).2 =
      dedupFold (fun t => t.id) (fun t => qualifiesInfo (infoOf env t.id))
        (fun t => mkOffRowRemote t (infoOf env t.id)) (teamOccs env) [] := by
  have hflat : offenseAggRemote env =
      (teamOccs env).foldl (remoteRowStep mkOffRowRemote env)
        ({ cache := [], fetches := 0 }, []) := by
    unfold offenseAggRemote teamOccs
    rw [foldl_flat]
  rw [hflat]
  exact (remote_fold_teams mkOffRowRemote env (teamOccs env) _ []
    (consistent_nil env)).1

theorem defenseAggRemote_eq (env : RemoteEnv) :
    (defenseAggRemote env).2 =
      dedupFold (fun t => t.id) (fun t => qualifiesInfo (infoOf env t.id))
        (fun t => mkDefRowRemote t (infoOf env t.id)) (teamOccs env) [] := by
  have hflat : defenseAggRemote env =
      (teamOccs env).foldl (remoteRowStep mkDefRowRemote env)
        ({ cache := [], fetches := 0 }, []) := by
    unfold defenseAggRemote teamOccs
    rw [foldl_flat]
  rw [hflat]
  exact (remote_fold_teams mkDefRowRemote env (teamOccs env) _ []
    (consistent_nil env)).1

/-- C4 counterexample: the local-snapshot defense builder sorts by yards
allowed, so rows with points allowed 10, 30, 20 come out with points
allowed 30, 20, 10 rather than ascending. -/
theorem defense_sort_points_cex :
    (sortDefenseLocal defLocalExample).map DefRowLocal.ptsAllowed = [30, 20, 10] ∧
    ([30, 20, 10] : List ℚ) ≠ [10, 20, 30] := by
  constructor
  · decide
  · decide

/-- C4 amended: the offense builders sort descending by points per game,
the remote defense builder sorts ascending by points allowed per game, and
the local-snapshot defense builder sorts ascending by yards allowed per
game; each sort permutes its input. -/
theorem ranking_sort_orders :
    (∀ teams : List OffRow,
      List.Sorted ppgDesc (sortOffense teams) ∧ List.Perm (sortOffense teams) teams) ∧
    (∀ teams : List DefRowRemote,
      List.Sorted ptsAllowedAsc (sortDefenseRemote teams) ∧
        List.Perm (sortDefenseRemote teams) teams) ∧
    (∀ teams : List DefRowLocal,
      List.Sorted yardsAllowedAsc (sortDefenseLocal teams) ∧
        List.Perm (sortDefenseLocal teams) teams) ∧
    (sortOffense offExample).map OffRow.ppg = [30, 20, 10] ∧
    (sortDefenseRemote defRemoteExample).map DefRowRemote.ppgAllowed =
      [10, 20, 30] := by
  refine ⟨fun teams => ⟨?_, ?_⟩, fun teams => ⟨?_, ?_⟩, fun teams => ⟨?_, ?_⟩,
    by decide, by decide⟩
  · exact List.sorted_insertionSort ppgDesc teams
  · exact List.perm_insertionSort ppgDesc teams
  · exact List.sorted_insertionSort ptsAllowedAsc teams
  · exact List.perm_insertionSort ptsAllowedAsc teams
  · exact List.sorted_insertionSort yardsAllowedAsc teams
  · exact List.perm_insertionSort yardsAllowedAsc teams

/-- C5: every ranking aggregation keys rows by team id without duplicates,
and the row stored for an id is built from the first qualifying occurrence
of that id in traversal order; later occurrences are ignored, for the
local and the remote offense and defense builders alike. -/
theorem ranking_dedup_first_seen (events : List Event) (env : RemoteEnv)
    (id : String) :
    ((offenseAggLocal events).map Prod.fst).Nodup ∧
    (offenseAggLocal events).lookup id =
      (firstQualOcc events id).map (fun p => mkOffRow p.2 (statsOf p.1 p.2.id)) ∧
    ((defenseAggLocal events).map Prod.fst).Nodup ∧
    (defenseAggLocal events).lookup id =
      (firstQualOcc events id).map
        (fun p => mkDefRowLocal p.2 (statsOf p.1 p.2.id)) ∧
    (((offenseAggRemote env).2).map Prod.fst).Nodup ∧
    ((offenseAggRemote env).2).lookup id =
      (firstQualTeamOcc env id).map (fun t => mkOffRowRemote t (infoOf env t.id)) ∧
    (((defenseAggRemote env).2).map Prod.fst).Nodup ∧
    ((defenseAggRemote env).2).lookup id =
      (firstQualTeamOcc env id).map
        (fun t => mkDefRowRemote t (infoOf env t.id)) := by
  refine ⟨?_, ?_, ?_, ?_, ?_, ?_, ?_, ?_⟩
  · rw [offenseAggLocal_eq]
    exact dedupFold_nodup_keys _ _ _ _ [] (by simp)
  · rw [offenseAggLocal_eq, dedupFold_lookup]
    rfl
  · rw [defenseAggLocal_eq]
    exact dedupFold_nodup_keys _ _ _ _ [] (by simp)
  · rw [defenseAggLocal_eq, dedupFold_lookup]
    rfl
  · rw [offenseAggRemote_eq]
    exact dedupFold_nodup_keys _ _ _ _ [] (by simp)
  · rw [offenseAggRemote_eq, dedupFold_lookup]
    rfl
  · rw [defenseAggRemote_eq]
    exact dedupFold_nodup_keys _ _ _ _ [] (by simp)
  · rw [defenseAggRemote_eq, dedupFold_lookup]
    rfl

/-- C8: on a cache miss getTeamInfo performs exactly one fetch and stores
the computed value under the team id, and any later call that finds that
value cached returns it unchanged with no further fetch. -/
theorem getTeamInfo_cache_spec (env : RemoteEnv) (teamId : String)
    (st : CacheState) (hmiss : st.cache.lookup teamId = none) :
    (getTeamInfo env teamId st).2.fetches = st.fetches + 1 ∧
    (getTeamInfo env teamId st).2.cache.lookup teamId =
      some (getTeamInfo env teamId st).1 ∧
    (∀ st2 : CacheState,
      st2.cache.lookup teamId = some (getTeamInfo env teamId st).1 →
      getTeamInfo env teamId st2 = ((getTeamInfo env teamId st).1, st2)) := by
  have hval : (getTeamInfo env teamId st).1 = infoOf env teamId := by
    unfold getTeamInfo; rw [hmiss]
  have hstate : (getTeamInfo env teamId st).2 =
      { cache := st.cache ++ [(teamId, infoOf env teamId)],
        fetches := st.fetches + 1 } := by
    unfold getTeamInfo; rw [hmiss]
  refine ⟨by rw [hstate], ?_, ?_⟩
  · rw [hstate, hval, lookup_append, hmiss]
    simp only [Option.or]
    exact lookup_singleton_self teamId (infoOf env teamId)
  · intro st2 h2
    unfold getTeamInfo
    rw [h2, hmiss, hval]

/-- C8 witness: starting from an empty cache, two consecutive lookups of
the same team id leave the fetch counter at one. -/
theorem getTeamInfo_cache_spec_witness :
    (getTeamInfo envEmpty "52" { cache := [], fetches := 0 }).2.fetches = 1 ∧
    (getTeamInfo envEmpty "52"
        (getTeamInfo envEmpty "52" { cache := [], fetches := 0 }).2).2.fetches = 1 := by
  have h := getTeamInfo_cache_spec envEmpty "52" { cache := [], fetches := 0 } rfl
  refine ⟨h.1, ?_⟩
  rw [h.2.2 (getTeamInfo envEmpty "52" { cache := [], fetches := 0 }).2 h.2.1]
  exact h.1

theorem jsOrZero_eq_getD (o : Option ℚ) : jsOrZero o = o.getD 0 := by
  cases o with
  | none => rfl
  | some q =>
    by_cases hq : q = 0 <;> simp [jsOrZero, hq]

theorem jsOrZeroN_eq_getD (o : Option (Option ℚ)) :
    jsOrZeroN o = (o.getD none).getD 0 := by
  match o with
  | none => rfl
  | some none => rfl
  | some (some q) => by_cases hq : q = 0 <;> simp [jsOrZeroN, hq]

/-- C9: every statistics field of an offense or defense ranking row equals
the upstream value when that value is present and zero when it is absent,
in both the local and the remote row constructors. -/
theorem stat_fields_default_zero (comp : Competitor) (stats : List (String × ℚ))
    (team : TeamEntry) (info : TeamInfo) :
    ((mkOffRow comp stats).ppg = (stats.lookup "totalPointsPerGame").getD 0 ∧
     (mkOffRow comp stats).yards = (stats.lookup "yardsPerGame").getD 0 ∧
     (mkOffRow comp stats).passYards =
       (stats.lookup "passingYardsPerGame").getD 0 ∧
     (mkOffRow comp stats).rushYards =
       (stats.lookup "rushingYardsPerGame").getD 0) ∧
    ((mkDefRowLocal comp stats).yardsAllowed =
       (stats.lookup "yardsPerGameAllowed").getD 0 ∧
     (mkDefRowLocal comp stats).passAllowed =
       (stats.lookup "passingYardsPerGameAllowed").getD 0 ∧
     (mkDefRowLocal comp stats).rushAllowed =
       (stats.lookup "rushingYardsPerGameAllowed").getD 0 ∧
     (mkDefRowLocal comp stats).ptsAllowed =
       (stats.lookup "totalPointsPerGameAllowed").getD 0) ∧
    ((mkOffRowRemote team info).ppg =
       ((team.stats.lookup "totalPointsPerGame").getD none).getD 0 ∧
     (mkOffRowRemote team info).yards =
       ((team.stats.lookup "yardsPerGame").getD none).getD 0 ∧
     (mkOffRowRemote team info).passYards =
       ((team.stats.lookup "passingYardsPerGame").getD none).getD 0 ∧
     (mkOffRowRemote team info).rushYards =
       ((team.stats.lookup "rushingYardsPerGame").getD none).getD 0) ∧
    ((mkDefRowRemote team info).ppgAllowed =
       ((team.stats.lookup "totalPointsPerGameAllowed").getD none).getD 0 ∧
     (mkDefRowRemote team info).yardsAllowed =
       ((team.stats.lookup "yardsPerGameAllowed").getD none).getD 0 ∧
     (mkDefRowRemote team info).passAllowed =
       ((team.stats.lookup "passingYardsPerGameAllowed").getD none).getD 0 ∧
     (mkDefRowRemote team info).rushAllowed =
       ((team.stats.lookup "rushingYardsPerGameAllowed").getD none).getD 0) := by
  simp [mkOffRow, mkDefRowLocal, mkOffRowRemote, mkDefRowRemote,
    jsOrZero_eq_getD, jsOrZeroN_eq_getD]

/-- C7: any category query value whose lower-casing is outside the four
known categories, including the absent case, makes the load handler render
the instructional title and description with an empty rankings container,
and the handler is a total function so nothing is thrown. -/
theorem unknown_category_instructions (p : Option String)
    (h : jsToLowerCase (p.getD "") ∉
      (["offense", "defense", "returning", "sos"] : List String)) :
    handleLoad p = .showInstructions "Rankings"
      "Please select a category from the navigation menu to view rankings." "" := by
  simp only [List.mem_cons, List.not_mem_nil, or_false, not_or] at h
  obtain ⟨h1, h2, h3, h4⟩ := h
  simp [handleLoad, h1, h2, h3, h4]

/-- C7 witness: an unknown category value and an absent parameter both
produce the instructional state with an empty container. -/
theorem unknown_category_instructions_witness :
    handleLoad (some "POINTS") = .showInstructions "Rankings"
      "Please select a category from the navigation menu to view rankings." "" ∧
    handleLoad none = .showInstructions "Rankings"
      "Please select a category from the navigation menu to view rankings." "" :=
  ⟨unknown_category_instructions (some "POINTS") (by decide),
   unknown_category_instructions none (by decide)⟩

theorem venueLineOf_ok_of_safe (ov : Option Venue) (h : venueSafe ov) :
    ∃ vl, venueLineOf ov = .ok vl := by
  match ov with
  | none => exact ⟨none, rfl⟩
  | some v =>
    match hf : v.fullName with
    | none => exact ⟨none, by simp [venueLineOf, hf]⟩
    | some fn =>
      by_cases hfe : fn = ""
      · exact ⟨none, by simp [venueLineOf, hf, hfe]⟩
      · simp only [venueSafe, hf] at h
        rcases h with h | h
        · exact absurd h hfe
        · obtain ⟨a, ha⟩ := Option.isSome_iff_exists.mp h
          exact ⟨some (fn ++ ", " ++ a.city ++ ", " ++ a.state),
            by simp [venueLineOf, hf, hfe, ha]⟩

/-- C6 counterexample: a summary without a boxscore renders the title
Summary not available, which is not the Game not found wording of the
claim. -/
theorem renderSummary_title_cex :
    (renderSummary emptySummary).map renderTitle = .ok "Summary not available" ∧
    "Summary not available" ≠ "Game not found" :=
  ⟨rfl, by decide⟩

/-- C6 amended: a summary lacking a boxscore or with fewer than two teams
renders the not-available state without throwing, and with two
participants and a well-formed venue block the renderer succeeds whatever
statistics are present, displaying the dash placeholder for every missing
metric. -/
theorem renderSummary_spec (s : Summary) :
    ((s.boxscore = none ∨ ∃ b, s.boxscore = some b ∧
        (b.teams = none ∨ b.teams = some [] ∨ ∃ t, b.teams = some [t])) →
      (renderSummary s).map renderTitle = .ok "Summary not available") ∧
    (∀ b t0 t1 rest, s.boxscore = some b → b.teams = some (t0 :: t1 :: rest) →
      venueSafe (s.gameInfo.getD { venue := none, weather := none }).venue →
      ∃ v : RenderView, renderSummary s = .ok (.view v) ∧
        v.rows = comparisonRows.map (fun r =>
          (r.2, jsOrDash ((statMapOf t0).lookup r.1),
            jsOrDash ((statMapOf t1).lookup r.1))) ∧
        ∀ r ∈ comparisonRows, (statMapOf t0).lookup r.1 = none →
          (r.2, "–", jsOrDash ((statMapOf t1).lookup r.1)) ∈ v.rows) := by
  constructor
  · rintro (hb | ⟨b, hb, ht | ht | ⟨t, ht⟩⟩)
    · simp [renderSummary, hb, renderTitle, Except.map]
    · simp [renderSummary, hb, ht, renderTitle, Except.map]
    · simp [renderSummary, hb, ht, renderTitle, Except.map]
    · simp [renderSummary, hb, ht, renderTitle, Except.map]
  · intro b t0 t1 rest hb ht hsafe
    obtain ⟨vl, hvl⟩ := venueLineOf_ok_of_safe _ hsafe
    have hres : renderSummary s = .ok (.view
        { title := t0.team.displayName ++ " vs " ++ t1.team.displayName
          rows := comparisonRows.map (fun r =>
            (r.2, jsOrDash ((statMapOf t0).lookup r.1),
              jsOrDash ((statMapOf t1).lookup r.1)))
          venueLine := vl
          weatherLine := weatherLineOf
            (s.gameInfo.getD { venue := none, weather := none }).weather }) := by
      simp [renderSummary, hb, ht, hvl]
    refine ⟨_, hres, rfl, ?_⟩
    intro r hr hnone
    have hmem := List.mem_map_of_mem (f := fun r =>
      (r.2, jsOrDash ((statMapOf t0).lookup r.1),
        jsOrDash ((statMapOf t1).lookup r.1))) hr
    simpa [hnone, jsOrDash] using hmem

/-- C6 witness: the empty summary renders not-available, and a two-team
summary with almost all statistics missing renders a full comparison
table. -/
theorem renderSummary_spec_witness :
    (renderSummary emptySummary).map renderTitle = .ok "Summary not available" ∧
    ∃ v : RenderView, renderSummary twoTeamSummary = .ok (.view v) ∧
      v.rows = comparisonRows.map (fun r =>
        (r.2, jsOrDash ((statMapOf statsTeamA).lookup r.1),
          jsOrDash ((statMapOf statsTeamB).lookup r.1))) := by
  constructor
  · exact (renderSummary_spec emptySummary).1 (Or.inl rfl)
  · obtain ⟨v, hv, hrows, -⟩ :=
      (renderSummary_spec twoTeamSummary).2
        { teams := some [statsTeamA, statsTeamB] } statsTeamA statsTeamB []
        rfl rfl trivial
    exact ⟨v, hv, hrows⟩

end Power4
